import Mathlib

/-!
Shallow embedding of the movie-enrichment pipeline
(`src/data_processing/enrich_data.py` and `src/data_processing/load_data.py`).

Effectful Python code is modelled by explicit state passing: every network
request and every `sleep` is recorded in an effect trace (`Eff`), the HTTP
transport is a function from the request index (order of issue) to a
response, and the filesystem state (the persisted enriched dataset) is an
`Option (List EnrichedRow)` threaded through `process_and_save_data`.
The `Retry-After` header is modelled as already-parsed seconds
(`Option Nat`), matching the wire contract "optional Retry-After header in
seconds".
-/

/-- Observable side effects of the pipeline, in order of occurrence. -/
inductive Eff where
  /-- a GET to the `search/movie` endpoint -/
  | search : Eff
  /-- a GET to the `movie/{id}` details endpoint -/
  | detailsReq : Eff
  /-- a backoff / rate-limit sleep of `n` whole seconds -/
  | sleepSec (n : Nat) : Eff
  /-- the fixed `sleep(0.5)` inter-request delay in `enrich_dataframe` -/
  | sleepHalf : Eff
  /-- one call from `enrich_dataframe` to `get_movie_details` -/
  | gmdCall : Eff
  /-- one write of the persisted enriched dataset (`_save_enriched_data`) -/
  | write : Eff
deriving DecidableEq, Repr

/-- The `title` argument of `get_movie_details`: a Python `str`, or any
non-string value (`None`, an `int`, ...), which `isinstance(title, str)`
rejects. -/
inductive TitleVal where
  | str (s : String) : TitleVal
  | nonStr : TitleVal
deriving DecidableEq, Repr

/-- The `year` argument of `get_movie_details`: a Python `int`, a `str`
(as read from a CSV), or `None`. -/
inductive YearVal where
  | int (n : Int) : YearVal
  | str (s : String) : YearVal
  | noneV : YearVal
deriving DecidableEq, Repr

/-- Python `str.strip()` with no argument: drop leading and trailing
whitespace. Defined over the character list so it reduces in the kernel. -/
def pyStrip (s : String) : String :=
  ⟨((s.toList.dropWhile Char.isWhitespace).reverse.dropWhile
      Char.isWhitespace).reverse⟩

/-- Digits-only parse used by `pyStrToInt`. -/
def digitsToNat : List Char → Option Nat
  | [] => none
  | cs =>
    if cs.all Char.isDigit then
      some (cs.foldl (fun a c => a * 10 + (c.toNat - 48)) 0)
    else
      none

/-- Python `int(s)` on a string: surrounding whitespace stripped, optional
sign, then decimal digits; anything else raises `ValueError`. -/
def pyStrToInt (s : String) : Option Int :=
  match (pyStrip s).toList with
  | '-' :: rest => (digitsToNat rest).map (fun n => -(n : Int))
  | '+' :: rest => (digitsToNat rest).map (fun n => (n : Int))
  | cs => (digitsToNat cs).map (fun n => (n : Int))

/-- Python `int(year)` for the values `year` can take here: an `int` is
returned unchanged, a `str` is parsed, `None` raises `TypeError`. -/
def pyToInt : YearVal → Option Int
  | .int n => some n
  | .str s => pyStrToInt s
  | .noneV => none

/-- The two validation failures of `_validate_movie_input` (both are raised
as `ValueError` in Python; we keep the kind). -/
inductive ValErr where
  | emptyTitle : ValErr
  | invalidYear : ValErr
deriving DecidableEq, Repr

/-- `_validate_movie_input` (enrich_data.py, lines 28-52): the title must be
a string that is non-empty after stripping; the year must convert with
`int(...)` and lie in `[1800, 2100]`; returns the stripped title and the
integer year. -/
def _validate_movie_input (title : TitleVal) (year : YearVal) :
    Except ValErr (String × Int) :=
  match title with
  | .nonStr => .error .emptyTitle
  | .str s =>
    if pyStrip s = "" then .error .emptyTitle
    else
      match pyToInt year with
      | none => .error .invalidYear
      | some y =>
        if 1800 ≤ y ∧ y ≤ 2100 then .ok (pyStrip s, y)
        else .error .invalidYear

/-- One entry of the `crew` list of a TMDb credits payload. `member.get('job')`
and `member.get('name')` may both be absent, hence the `Option`s. -/
structure CrewMember where
  job : Option String
  name : Option String
deriving DecidableEq, Repr

/-- The `credits` object of a details payload (`credits.get('crew', [])`). -/
structure Credits where
  crew : List CrewMember
deriving DecidableEq, Repr

/-- A named entry of the `genres` / `production_countries` lists
(`genre['name']`, `country['name']` are indexed directly, so required). -/
structure NamedEntry where
  name : String
deriving DecidableEq, Repr

/-- A TMDb movie-details payload, restricted to the fields the pipeline
reads. `.get(...)` accesses are modelled by `Option` fields; the
list-valued `.get(..., [])` defaults are folded into plain lists. -/
structure Details where
  vote_average : Option Rat
  overview : Option String
  genres : List NamedEntry
  credits : Option Credits
  production_countries : List NamedEntry
  runtime : Option Int
deriving DecidableEq, Repr

/-- `_extract_directors` (enrich_data.py, lines 92-107): the names of crew
members whose `job` equals exactly `"Director"`, in list order; `['N/A']`
if none matched. A matching member with no `name` contributes Python
`None`, hence the `Option String` elements. -/
def _extract_directors (credits : Credits) : List (Option String) :=
  let directors :=
    (credits.crew.filter (fun m => m.job == some "Director")).map
      (fun m => m.name)
  if directors.isEmpty then [some "N/A"] else directors

/-- One row of the source reviews table. `pd.isna` on `Name` / `Year` is
modelled by `none`; `Review` and `Watched Date` are looked up with
`.get(..., None)`. -/
structure SourceRow where
  name : Option String
  year : Option Int
  letterboxdURI : String
  rating : Option Rat
  review : Option String
  watchedDate : Option String
deriving DecidableEq, Repr

/-- The dict built by `_build_enriched_row`, i.e. one row of the enriched
dataset. -/
structure EnrichedRow where
  name : Option String
  year : Option Int
  letterboxdURI : String
  myRating : Option Rat
  review : Option String
  watchedDate : Option String
  rating : Option Rat
  synopsis : Option String
  genres : List String
  director : List (Option String)
  country : List String
  runtime : Option Int
deriving DecidableEq, Repr

/-- `_build_enriched_row` (enrich_data.py, lines 202-226): pure mapping from
a source row plus a details payload to an enriched row. -/
def _build_enriched_row (source_row : SourceRow) (details : Details) :
    EnrichedRow where
  name := source_row.name
  year := source_row.year
  letterboxdURI := source_row.letterboxdURI
  myRating := source_row.rating
  review := source_row.review
  watchedDate := source_row.watchedDate
  rating := details.vote_average
  synopsis := details.overview
  genres := details.genres.map (fun g => g.name)
  director := _extract_directors (details.credits.getD ⟨[]⟩)
  country := details.production_countries.map (fun c => c.name)
  runtime := details.runtime

/-- The JSON body of a 2xx response, as the pipeline interprets it: either a
search payload (of which only `results[i]['id']` is read) or a details
payload. -/
inductive Body where
  | searchBody (results : List Nat) : Body
  | detailsBody (d : Details) : Body
deriving DecidableEq, Repr

/-- One HTTP outcome as seen through `requests.get`: a 429 with optional
`Retry-After` seconds, a timeout, any other request failure (connection
errors and non-2xx statuses via `raise_for_status`), or a 2xx with a JSON
body. -/
inductive HttpResult where
  | status429 (retryAfter : Option Nat) : HttpResult
  | timeout : HttpResult
  | reqError : HttpResult
  | ok (b : Body) : HttpResult
deriving DecidableEq, Repr

/-- `_fetch_from_api` (enrich_data.py, lines 55-89), given the transport's
response to this request: on 429 sleep `Retry-After` (default `2^attempt`)
and return `None`; on timeout or request failure sleep `2^attempt` unless
this is the final attempt, and return `None`; on success return the body.
Returns the result together with the sleeps performed. -/
def _fetch_from_api (resp : HttpResult) (attempt max_retries : Nat) :
    Option Body × List Eff :=
  match resp with
  | .status429 ra => (none, [.sleepSec (ra.getD (2 ^ attempt))])
  | .timeout =>
    (none, if attempt < max_retries - 1 then [.sleepSec (2 ^ attempt)] else [])
  | .reqError =>
    (none, if attempt < max_retries - 1 then [.sleepSec (2 ^ attempt)] else [])
  | .ok b => (some b, [])

/-- The `for attempt in range(retries)` loop of `get_movie_details`
(enrich_data.py, lines 133-157). `transport` answers the `k`-th HTTP request
issued; `rem` is the number of loop iterations left (initially `retries`).
Returns the result and the trace of requests and sleeps. -/
def gmdLoop (transport : Nat → HttpResult) (retries : Nat) :
    Nat → Nat → Nat → Option Body × List Eff
  | _, _, 0 => (none, [])
  | attempt, k, rem + 1 =>
    let s := _fetch_from_api (transport k) attempt retries
    match s.1 with
    | none =>
      let nxt := gmdLoop transport retries (attempt + 1) (k + 1) rem
      (nxt.1, .search :: s.2 ++ nxt.2)
    | some body =>
      match body with
      | .detailsBody _ => (none, .search :: s.2)
      | .searchBody [] => (none, .search :: s.2)
      | .searchBody (_ :: _) =>
        let dres := _fetch_from_api (transport (k + 1)) attempt retries
        match dres.1 with
        | none =>
          let nxt := gmdLoop transport retries (attempt + 1) (k + 2) rem
          (nxt.1, .search :: s.2 ++ .detailsReq :: dres.2 ++ nxt.2)
        | some d => (some d, .search :: s.2 ++ .detailsReq :: dres.2)

/-- `get_movie_details` (enrich_data.py, lines 110-157): validate the API
key and the inputs (on failure return `None` with no request made), then run
the search/details retry loop against the transport. -/
def get_movie_details (apiKeySet : Bool) (transport : Nat → HttpResult)
    (title : TitleVal) (year : YearVal) (retries : Nat := 3) :
    Option Body × List Eff :=
  if !apiKeySet then (none, [])
  else
    match _validate_movie_input title year with
    | .error _ => (none, [])
    | .ok _ => gmdLoop transport retries 0 0 retries

/-- A pandas DataFrame of source rows: the column names it actually carries
(what `df.columns` reports) together with its typed rows. -/
structure DataFrame where
  columns : List String
  rows : List SourceRow
deriving DecidableEq, Repr

/-- The required columns of `enrich_dataframe` (enrich_data.py, line 173). -/
def requiredColumns : List String := ["Name", "Year", "Letterboxd URI", "Rating"]

/-- The two `ValueError`s `enrich_dataframe` can raise. -/
inductive EnrichErr where
  | missingColumns : EnrichErr
  | noRecordsEnriched : EnrichErr
deriving DecidableEq, Repr

/-- The row loop of `enrich_dataframe` (enrich_data.py, lines 180-193),
with `get_movie_details` abstracted into the oracle `gmd` (as the unit tests
mock it): rows with a missing `Name` or `Year` are skipped outright
(`continue`, before the sleep); otherwise the gateway is called, a present
result is transformed and appended, and `sleep(0.5)` runs after the call
whatever its outcome. -/
def enrichRows (gmd : String → Int → Option Details) :
    List SourceRow → List EnrichedRow × List Eff
  | [] => ([], [])
  | r :: rs =>
    match r.name, r.year with
    | some n, some y =>
      let rest := enrichRows gmd rs
      match gmd n y with
      | some d => (_build_enriched_row r d :: rest.1, .gmdCall :: .sleepHalf :: rest.2)
      | none => (rest.1, .gmdCall :: .sleepHalf :: rest.2)
    | _, _ => enrichRows gmd rs

/-- `enrich_dataframe` (enrich_data.py, lines 159-199): raise if a required
column is missing (before any row is processed), run the row loop, raise if
nothing was enriched; returns the outcome with the effect trace. -/
def enrich_dataframe (gmd : String → Int → Option Details) (df : DataFrame) :
    Except EnrichErr (List EnrichedRow) × List Eff :=
  if (requiredColumns.filter (fun c => !(df.columns.contains c))) ≠ [] then
    (.error .missingColumns, [])
  else
    let res := enrichRows gmd df.rows
    if res.1.isEmpty then (.error .noRecordsEnriched, res.2)
    else (.ok res.1, res.2)

/-- `_get_new_movies` (load_data.py, lines 67-88): when no enriched file
exists, the whole source; otherwise the source rows whose `Letterboxd URI`
is not among the already-enriched URIs. Columns are untouched. -/
def _get_new_movies (source_df : DataFrame)
    (enriched : Option (List EnrichedRow)) : DataFrame :=
  match enriched with
  | none => source_df
  | some ex =>
    let uris := ex.map (fun r => r.letterboxdURI)
    ⟨source_df.columns,
      source_df.rows.filter (fun r => !(uris.contains r.letterboxdURI))⟩

/-- `drop_duplicates(subset=['Letterboxd URI'], keep='first')`: keep the
first row carrying each URI, given the URIs already seen. -/
def dropDupFirstBy : List EnrichedRow → List String → List EnrichedRow
  | [], _ => []
  | r :: rs, seen =>
    if seen.contains r.letterboxdURI then dropDupFirstBy rs seen
    else r :: dropDupFirstBy rs (r.letterboxdURI :: seen)

/-- `_combine_enriched_data` (load_data.py, lines 91-111): when no enriched
file exists, the new data alone; otherwise existing rows followed by new
rows, de-duplicated by `Letterboxd URI` keeping the first occurrence. -/
def _combine_enriched_data (new_enriched : List EnrichedRow)
    (enriched : Option (List EnrichedRow)) : List EnrichedRow :=
  match enriched with
  | none => new_enriched
  | some existing => dropDupFirstBy (existing ++ new_enriched) []

/-- The exceptions `process_and_save_data` re-raises. -/
inductive RunError where
  | noApiKey : RunError
  | sourceNotFound : RunError
  | enrichFailed (e : EnrichErr) : RunError
deriving DecidableEq, Repr

/-- `process_and_save_data` (load_data.py, lines 113-144): check the API
key, load the source (`none` models a missing file), compute the delta; if
it is empty return without enriching or writing; otherwise enrich it
(errors propagate, leaving the persisted dataset untouched), combine with
the existing dataset and write the result. Returns the outcome, the new
persisted dataset, and the effect trace. -/
def process_and_save_data (apiKeySet : Bool)
    (gmd : String → Int → Option Details) (source : Option DataFrame)
    (enriched : Option (List EnrichedRow)) :
    Except RunError Unit × Option (List EnrichedRow) × List Eff :=
  if !apiKeySet then (.error .noApiKey, enriched, [])
  else
    match source with
    | none => (.error .sourceNotFound, enriched, [])
    | some df =>
      let new_movies := _get_new_movies df enriched
      if new_movies.rows.isEmpty then (.ok (), enriched, [])
      else
        match enrich_dataframe gmd new_movies with
        | (.error e, tr) => (.error (.enrichFailed e), enriched, tr)
        | (.ok newE, tr) =>
          let combined := _combine_enriched_data newE enriched
          (.ok (), some combined, tr ++ [.write])

/-! ### Sample data used by witnesses and counterexamples -/

/-- A details payload with every optional field absent and every list empty. -/
def dEmpty : Details := ⟨none, none, [], none, [], none⟩

/-- A source row for movie "A" (uri "u1"), fully populated where required. -/
def rowA : SourceRow := ⟨some "A", some 2010, "u1", some 5, none, none⟩

/-- A source row for movie "B" (uri "u2"). -/
def rowB : SourceRow := ⟨some "B", some 2008, "u2", some 4, none, none⟩

/-- A source row with a missing `Year` (uri "u3"). -/
def rowNoYear : SourceRow := ⟨some "C", none, "u3", some 3, none, none⟩

/-- A gateway oracle that finds movie "A" only. -/
def gmdA : String → Int → Option Details :=
  fun n _ => if n == "A" then some dEmpty else none

/-- A gateway oracle that finds every movie. -/
def gmdAll : String → Int → Option Details := fun _ _ => some dEmpty

/-- A gateway oracle that finds nothing. -/
def gmdNone : String → Int → Option Details := fun _ _ => none

/-- A source batch with all required columns and rows A, B. -/
def dfAB : DataFrame := ⟨requiredColumns, [rowA, rowB]⟩

/-- A source batch with all required columns, one complete row and one row
with a missing `Year`. -/
def dfMissingYear : DataFrame := ⟨requiredColumns, [rowA, rowNoYear]⟩

/-- A source batch whose schema lacks the `Letterboxd URI` column. -/
def dfNoURI : DataFrame := ⟨["Name", "Year", "Rating"], [rowA]⟩

/-! ### Claim theorems -/

/-- C7: `_validate_movie_input` returns the trimmed title and the integer
year exactly when the title is non-empty after trimming and the year
converts to an integer in `[1800, 2100]`; a blank title fails with the
empty-title error, and a non-convertible or out-of-range year fails with
the invalid-year error. -/
theorem claim_C7 (s : String) (year : YearVal) :
    (∀ y : Int, pyStrip s ≠ "" → pyToInt year = some y → 1800 ≤ y → y ≤ 2100 →
      _validate_movie_input (.str s) year = .ok (pyStrip s, y))
    ∧ (pyStrip s = "" →
      _validate_movie_input (.str s) year = .error .emptyTitle)
    ∧ (pyStrip s ≠ "" → pyToInt year = none →
      _validate_movie_input (.str s) year = .error .invalidYear)
    ∧ (∀ y : Int, pyStrip s ≠ "" → pyToInt year = some y → (y < 1800 ∨ 2100 < y) →
      _validate_movie_input (.str s) year = .error .invalidYear) := by
  refine ⟨?_, ?_, ?_, ?_⟩
  · intro y hne hconv h1 h2
    simp [_validate_movie_input, hne, hconv, h1, h2]
  · intro he
    simp [_validate_movie_input, he]
  · intro hne hconv
    simp [_validate_movie_input, hne, hconv]
  · intro y hne hconv hout
    have : ¬(1800 ≤ y ∧ y ≤ 2100) := by omega
    simp [_validate_movie_input, hne, hconv, this]

/-- Witness for C7 at concrete inputs: a padded title with year 2010 is
accepted and trimmed; a blank title, a non-numeric year and a year of 1700
are rejected. -/
theorem claim_C7_witness :
    _validate_movie_input (.str " Inception ") (.int 2010) = .ok ("Inception", 2010)
    ∧ _validate_movie_input (.str "   ") (.int 2010) = .error .emptyTitle
    ∧ _validate_movie_input (.str "X") (.str "not_a_year") = .error .invalidYear
    ∧ _validate_movie_input (.str "X") (.int 1700) = .error .invalidYear := by
  refine ⟨?_, ?_, ?_, ?_⟩
  · exact (claim_C7 " Inception " (.int 2010)).1 2010 (by decide) (by decide)
      (by decide) (by decide)
  · exact (claim_C7 "   " (.int 2010)).2.1 (by decide)
  · exact (claim_C7 "X" (.str "not_a_year")).2.2.1 (by decide) (by decide)
  · exact (claim_C7 "X" (.int 1700)).2.2.2 1700 (by decide) (by decide)
      (by decide)

/-- C8: the `director` field of `_build_enriched_row` is the list of names
of crew members whose job is exactly `"Director"`, in API order, and the
sentinel `["N/A"]` when no crew member matches. -/
theorem claim_C8 (r : SourceRow) (d : Details) :
    (((d.credits.getD ⟨[]⟩).crew.filter (fun m => m.job == some "Director")) ≠ [] →
      (_build_enriched_row r d).director =
        ((d.credits.getD ⟨[]⟩).crew.filter
            (fun m => m.job == some "Director")).map (fun m => m.name))
    ∧ (((d.credits.getD ⟨[]⟩).crew.filter (fun m => m.job == some "Director")) = [] →
      (_build_enriched_row r d).director = [some "N/A"]) := by
  constructor
  · intro h
    simp [_build_enriched_row, _extract_directors, h]
  · intro h
    simp [_build_enriched_row, _extract_directors, h]

/-- Witness for C8: with crew `[<Director, A>, <Writer, B>]` the directors
are `[A]`; with an empty details payload they are `["N/A"]`. -/
theorem claim_C8_witness :
    (_build_enriched_row rowA
        ⟨none, none, [], some ⟨[⟨some "Director", some "A"⟩, ⟨some "Writer", some "B"⟩]⟩, [], none⟩).director
      = [some "A"]
    ∧ (_build_enriched_row rowA dEmpty).director = [some "N/A"] := by
  constructor
  · have h := (claim_C8 rowA
      ⟨none, none, [], some ⟨[⟨some "Director", some "A"⟩, ⟨some "Writer", some "B"⟩]⟩, [], none⟩).1
      (by decide)
    simpa using h
  · exact (claim_C8 rowA dEmpty).2 (by decide)

/-- C9: `enrich_dataframe` fails with the missing-columns error whenever a
required column (`Name`, `Year`, `Letterboxd URI`, `Rating`) is absent from
the batch schema, with an empty effect trace: the check runs once up front,
before any row is processed and before any gateway call or sleep. -/
theorem claim_C9 (gmd : String → Int → Option Details) (df : DataFrame)
    (h : ∃ c ∈ requiredColumns, c ∉ df.columns) :
    enrich_dataframe gmd df = (.error .missingColumns, []) := by
  obtain ⟨c, hc, hnot⟩ := h
  have hmem : c ∈ requiredColumns.filter (fun c => !(df.columns.contains c)) := by
    rw [List.mem_filter]
    exact ⟨hc, by simp [List.elem_iff, hnot]⟩
  have hne : requiredColumns.filter (fun c => !(df.columns.contains c)) ≠ [] :=
    List.ne_nil_of_mem hmem
  unfold enrich_dataframe
  rw [if_pos hne]

/-- Witness for C9: a batch whose schema lacks `Letterboxd URI` fails with
the missing-columns error and an empty trace. -/
theorem claim_C9_witness :
    (∃ c ∈ requiredColumns, c ∉ dfNoURI.columns)
    ∧ enrich_dataframe gmdAll dfNoURI = (.error .missingColumns, []) :=
  ⟨⟨"Letterboxd URI", by decide, by decide⟩,
    claim_C9 gmdAll dfNoURI ⟨"Letterboxd URI", by decide, by decide⟩⟩

/-- C5: for any valid title and year, when the transport answers the first
search request with a successful response whose result list is empty,
`get_movie_details` returns `none` immediately: the trace is exactly one
search request — no details request, no sleep, and no further attempt. -/
theorem claim_C5 (transport : Nat → HttpResult) (title : TitleVal)
    (year : YearVal) (p : String × Int) (retries : Nat)
    (hval : _validate_movie_input title year = .ok p)
    (hresp : transport 0 = .ok (.searchBody []))
    (hr : 1 ≤ retries) :
    get_movie_details true transport title year retries = (none, [.search]) := by
  obtain ⟨rem, rfl⟩ : ∃ rem, retries = rem + 1 := ⟨retries - 1, by omega⟩
  simp [get_movie_details, hval, gmdLoop, hresp, _fetch_from_api]

/-- Witness for C5 at a concrete valid input and transport. -/
theorem claim_C5_witness :
    _validate_movie_input (.str "Nonexistent") (.int 2099) = .ok ("Nonexistent", 2099)
    ∧ (fun _ : Nat => HttpResult.ok (.searchBody [])) 0 = .ok (.searchBody [])
    ∧ get_movie_details true (fun _ => .ok (.searchBody []))
        (.str "Nonexistent") (.int 2099) 3 = (none, [.search]) :=
  ⟨rfl, rfl,
    claim_C5 (fun _ => .ok (.searchBody [])) (.str "Nonexistent") (.int 2099)
      ("Nonexistent", 2099) 3 rfl rfl (by decide)⟩

/-- C6: with a valid title and year, against a transport answering the first
search with HTTP 429, the second search with a non-empty result list and
the following details request with a details payload, `get_movie_details`
(default budget 3) returns that payload; the trace shows the 429 sleep of
`Retry-After` seconds (default `2^0 = 1`) between the two search requests. -/
theorem claim_C6 (transport : Nat → HttpResult) (title : TitleVal)
    (year : YearVal) (p : String × Int) (ra : Option Nat) (mid : Nat)
    (rest : List Nat) (d : Details)
    (hval : _validate_movie_input title year = .ok p)
    (h0 : transport 0 = .status429 ra)
    (h1 : transport 1 = .ok (.searchBody (mid :: rest)))
    (h2 : transport 2 = .ok (.detailsBody d)) :
    get_movie_details true transport title year 3 =
      (some (.detailsBody d),
        [.search, .sleepSec (ra.getD 1), .search, .detailsReq]) := by
  simp [get_movie_details, hval, gmdLoop, h0, h1, h2, _fetch_from_api]

/-- Witness for C6 at a concrete transport realizing the 429 → 200 → 200
sequence, with `Retry-After: 1`. -/
theorem claim_C6_witness :
    get_movie_details true
        (fun k => if k == 0 then .status429 (some 1)
          else if k == 1 then .ok (.searchBody [12345])
          else .ok (.detailsBody dEmpty))
        (.str "Inception") (.int 2010) 3 =
      (some (.detailsBody dEmpty), [.search, .sleepSec 1, .search, .detailsReq]) :=
  claim_C6
    (fun k => if k == 0 then .status429 (some 1)
      else if k == 1 then .ok (.searchBody [12345])
      else .ok (.detailsBody dEmpty))
    (.str "Inception") (.int 2010) ("Inception", 2010) (some 1) 12345 [] dEmpty
    rfl rfl rfl rfl

/-- The trace of a single `_fetch_from_api` call holds sleeps only: it
contributes no search or details request. -/
theorem fetch_trace_no_requests (resp : HttpResult) (attempt max_retries : Nat) :
    ((_fetch_from_api resp attempt max_retries).2.count Eff.search = 0)
    ∧ ((_fetch_from_api resp attempt max_retries).2.count Eff.detailsReq = 0) := by
  cases resp <;> simp [_fetch_from_api] <;> split <;> simp

/-- Each remaining loop iteration of `get_movie_details` issues at most one
search request and at most one details request. -/
theorem gmdLoop_count_le (transport : Nat → HttpResult) (retries : Nat) :
    ∀ (rem attempt k : Nat),
      ((gmdLoop transport retries attempt k rem).2.count Eff.search ≤ rem)
      ∧ ((gmdLoop transport retries attempt k rem).2.count Eff.detailsReq ≤ rem) := by
  intro rem
  induction rem with
  | zero => intro attempt k; simp [gmdLoop]
  | succ n ih =>
    intro attempt k
    have hs := fetch_trace_no_requests (transport k) attempt retries
    have hd := fetch_trace_no_requests (transport (k + 1)) attempt retries
    cases htk : (_fetch_from_api (transport k) attempt retries).1 with
    | none =>
      have hrec := ih (attempt + 1) (k + 1)
      simp only [gmdLoop, htk]
      constructor <;>
        simp [List.count_cons, List.count_append, hs.1, hs.2, hrec.1, hrec.2]
      omega
    | some body =>
      cases body with
      | detailsBody d =>
        simp only [gmdLoop, htk]
        constructor <;> simp [List.count_cons, List.count_append, hs.1, hs.2]
      | searchBody results =>
        cases results with
        | nil =>
          simp only [gmdLoop, htk]
          constructor <;> simp [List.count_cons, List.count_append, hs.1, hs.2]
        | cons mid rest =>
          cases hdk : (_fetch_from_api (transport (k + 1)) attempt retries).1 with
          | none =>
            have hrec := ih (attempt + 1) (k + 2)
            simp only [gmdLoop, htk, hdk]
            constructor <;>
              simp [List.count_cons, List.count_append, hs.1, hs.2, hd.1, hd.2,
                hrec.1, hrec.2]
          | some d =>
            simp only [gmdLoop, htk, hdk]
            constructor <;>
              simp [List.count_cons, List.count_append, hs.1, hs.2, hd.1, hd.2]

/-- C10: for every API-key state, transport behavior, input and retry
budget, one call of `get_movie_details` issues at most `retries` search
requests and at most `retries` details requests, and (being a total
function) terminates with either a payload or `none`. -/
theorem claim_C10 (apiKeySet : Bool) (transport : Nat → HttpResult)
    (title : TitleVal) (year : YearVal) (retries : Nat) :
    ((get_movie_details apiKeySet transport title year retries).2.count
        Eff.search ≤ retries)
    ∧ ((get_movie_details apiKeySet transport title year retries).2.count
        Eff.detailsReq ≤ retries)
    ∧ ((get_movie_details apiKeySet transport title year retries).1 = none
      ∨ ∃ b, (get_movie_details apiKeySet transport title year retries).1 = some b) := by
  refine ⟨?_, ?_, ?_⟩
  · cases apiKeySet with
    | false => simp [get_movie_details]
    | true =>
      cases hv : _validate_movie_input title year with
      | error e => simp [get_movie_details, hv]
      | ok p => simpa [get_movie_details, hv] using
          (gmdLoop_count_le transport retries retries 0 0).1
  · cases apiKeySet with
    | false => simp [get_movie_details]
    | true =>
      cases hv : _validate_movie_input title year with
      | error e => simp [get_movie_details, hv]
      | ok p => simpa [get_movie_details, hv] using
          (gmdLoop_count_le transport retries retries 0 0).2
  · cases hres : (get_movie_details apiKeySet transport title year retries).1 with
    | none => exact Or.inl rfl
    | some b => exact Or.inr ⟨b, rfl⟩

/-- The row loop emits exactly one 0.5s sleep (and one gateway call) per row
whose `Name` and `Year` are both present; rows skipped for a missing value
emit nothing. -/
theorem enrichRows_count_sleepHalf (gmd : String → Int → Option Details)
    (rows : List SourceRow) :
    (enrichRows gmd rows).2.count Eff.sleepHalf =
      (rows.filter (fun r => r.name.isSome && r.year.isSome)).length := by
  induction rows with
  | nil => simp [enrichRows]
  | cons r rs ih =>
    cases hn : r.name with
    | none => simpa [enrichRows, hn] using ih
    | some n =>
      cases hy : r.year with
      | none => simpa [enrichRows, hn, hy] using ih
      | some y =>
        cases hg : gmd n y with
        | none => simp [enrichRows, hn, hy, hg, List.count_cons, ih]
        | some d => simp [enrichRows, hn, hy, hg, List.count_cons, ih]

/-- Every effect the row loop emits is a gateway call or a 0.5s sleep. -/
theorem enrichRows_trace_shape (gmd : String → Int → Option Details)
    (rows : List SourceRow) :
    ∀ e ∈ (enrichRows gmd rows).2, e = Eff.gmdCall ∨ e = Eff.sleepHalf := by
  induction rows with
  | nil => simp [enrichRows]
  | cons r rs ih =>
    intro e he
    cases hn : r.name with
    | none =>
      simp only [enrichRows, hn] at he
      exact ih e he
    | some n =>
      cases hy : r.year with
      | none =>
        simp only [enrichRows, hn, hy] at he
        exact ih e he
      | some y =>
        simp only [enrichRows, hn, hy] at he
        cases hg : gmd n y <;> simp only [hg, List.mem_cons] at he <;>
          rcases he with h | h | h
        · exact Or.inl h
        · exact Or.inr h
        · exact ih e h
        · exact Or.inl h
        · exact Or.inr h
        · exact ih e h

/-- The effect trace of `enrich_dataframe`: empty when the schema check
fails, otherwise exactly the row loop's trace (whether or not the
no-records error is raised afterwards). -/
theorem enrich_dataframe_snd (gmd : String → Int → Option Details)
    (df : DataFrame) :
    (enrich_dataframe gmd df).2 =
      if requiredColumns.filter (fun c => !(df.columns.contains c)) = [] then
        (enrichRows gmd df.rows).2
      else [] := by
  unfold enrich_dataframe
  by_cases hc : requiredColumns.filter (fun c => !(df.columns.contains c)) = []
  · rw [if_neg (not_not_intro hc), if_pos hc]
    cases he : (enrichRows gmd df.rows).1.isEmpty <;> simp [he]
  · rw [if_pos hc, if_neg hc]

/-- The trace of `enrich_dataframe` never contains a dataset write. -/
theorem enrich_dataframe_no_write (gmd : String → Int → Option Details)
    (df : DataFrame) : Eff.write ∉ (enrich_dataframe gmd df).2 := by
  intro hmem
  rw [enrich_dataframe_snd] at hmem
  by_cases hc : requiredColumns.filter (fun c => !(df.columns.contains c)) = []
  · rw [if_pos hc] at hmem
    simpa using enrichRows_trace_shape gmd df.rows Eff.write hmem
  · rw [if_neg hc] at hmem
    simp at hmem

/-- C2 (amended): on a batch that passes the schema check,
`enrich_dataframe` emits one 0.5s delay per row whose `Name` and `Year` are
both present — i.e. per row for which a gateway fetch is attempted,
regardless of the fetch's outcome — while rows skipped for a missing
`Name`/`Year` emit no delay. -/
theorem claim_C2_amended (gmd : String → Int → Option Details)
    (df : DataFrame)
    (hcols : requiredColumns.filter (fun c => !(df.columns.contains c)) = []) :
    (enrich_dataframe gmd df).2.count Eff.sleepHalf =
      (df.rows.filter (fun r => r.name.isSome && r.year.isSome)).length := by
  rw [enrich_dataframe_snd, if_pos hcols, enrichRows_count_sleepHalf]

/-- Witness for C2 (amended) on a concrete 2-row batch with one missing
`Year`: exactly one delay is emitted. -/
theorem claim_C2_witness :
    requiredColumns.filter (fun c => !(dfMissingYear.columns.contains c)) = []
    ∧ (enrich_dataframe gmdAll dfMissingYear).2.count Eff.sleepHalf =
      (dfMissingYear.rows.filter (fun r => r.name.isSome && r.year.isSome)).length :=
  ⟨by decide, claim_C2_amended gmdAll dfMissingYear (by decide)⟩

/-- Counterexample to C2 as stated: on a successfully enriched 2-row batch
whose second row lacks `Year`, only one 0.5s delay is emitted, not one per
input row — the `continue` for a missing `Name`/`Year` skips the sleep. -/
theorem claim_C2_counterexample :
    (enrich_dataframe gmdA dfMissingYear).1
        = .ok [_build_enriched_row rowA dEmpty]
    ∧ (enrich_dataframe gmdA dfMissingYear).2.count Eff.sleepHalf = 1
    ∧ dfMissingYear.rows.length = 2 :=
  ⟨rfl, by decide, rfl⟩

/-- `drop_duplicates(keep='first')` preserves the first record found for any
key not already marked as seen. -/
theorem dropDupFirstBy_find (k : String) :
    ∀ (l : List EnrichedRow) (seen : List String), k ∉ seen →
      (dropDupFirstBy l seen).find? (fun r => r.letterboxdURI == k)
        = l.find? (fun r => r.letterboxdURI == k) := by
  intro l
  induction l with
  | nil => intro seen _; rfl
  | cons r rs ih =>
    intro seen hk
    by_cases hseen : seen.contains r.letterboxdURI = true
    · have hmem : r.letterboxdURI ∈ seen := List.elem_iff.mp hseen
      have hne : ¬(r.letterboxdURI == k) = true := by
        simp only [beq_iff_eq]
        rintro rfl
        exact hk hmem
      simp only [dropDupFirstBy, if_pos hseen]
      rw [@List.find?_cons_of_neg _ (fun x => x.letterboxdURI == k) r rs hne]
      exact ih seen hk
    · simp only [dropDupFirstBy, if_neg hseen]
      by_cases hpk : (r.letterboxdURI == k) = true
      · rw [@List.find?_cons_of_pos _ (fun x => x.letterboxdURI == k) r
            (dropDupFirstBy rs (r.letterboxdURI :: seen)) hpk,
          @List.find?_cons_of_pos _ (fun x => x.letterboxdURI == k) r rs hpk]
      · rw [@List.find?_cons_of_neg _ (fun x => x.letterboxdURI == k) r
            (dropDupFirstBy rs (r.letterboxdURI :: seen)) hpk,
          @List.find?_cons_of_neg _ (fun x => x.letterboxdURI == k) r rs hpk]
        refine ih _ ?_
        simp only [List.mem_cons]
        rintro (rfl | hmem)
        · exact hpk (beq_self_eq_true _)
        · exact hk hmem

/-- A key occurs in the output of `dropDupFirstBy` exactly when it occurs in
the input and was not already seen. -/
theorem dropDupFirstBy_mem (k : String) :
    ∀ (l : List EnrichedRow) (seen : List String),
      k ∈ (dropDupFirstBy l seen).map (fun r => r.letterboxdURI)
        ↔ (k ∈ l.map (fun r => r.letterboxdURI) ∧ k ∉ seen) := by
  intro l
  induction l with
  | nil => intro seen; simp [dropDupFirstBy]
  | cons r rs ih =>
    intro seen
    by_cases hseen : seen.contains r.letterboxdURI = true
    · have hmem : r.letterboxdURI ∈ seen := List.elem_iff.mp hseen
      simp only [dropDupFirstBy, if_pos hseen, List.map_cons, List.mem_cons, ih]
      constructor
      · rintro ⟨h1, h2⟩
        exact ⟨Or.inr h1, h2⟩
      · rintro ⟨h1 | h1, h2⟩
        · exact absurd (h1 ▸ hmem) h2
        · exact ⟨h1, h2⟩
    · have hnmem : r.letterboxdURI ∉ seen := fun hm => hseen (List.elem_iff.mpr hm)
      simp only [dropDupFirstBy, if_neg hseen, List.map_cons, List.mem_cons, ih]
      constructor
      · rintro (rfl | ⟨h1, h2⟩)
        · exact ⟨Or.inl rfl, hnmem⟩
        · simp only [List.mem_cons, not_or] at h2
          exact ⟨Or.inr h1, h2.2⟩
      · rintro ⟨rfl | h1, h2⟩
        · exact Or.inl rfl
        · by_cases hkr : k = r.letterboxdURI
          · exact Or.inl hkr
          · exact Or.inr ⟨h1, by simp only [List.mem_cons, not_or]; exact ⟨hkr, h2⟩⟩

/-- The keys of the output of `dropDupFirstBy` are duplicate-free. -/
theorem dropDupFirstBy_nodup :
    ∀ (l : List EnrichedRow) (seen : List String),
      ((dropDupFirstBy l seen).map (fun r => r.letterboxdURI)).Nodup := by
  intro l
  induction l with
  | nil => intro seen; simp [dropDupFirstBy]
  | cons r rs ih =>
    intro seen
    by_cases hseen : seen.contains r.letterboxdURI = true
    · simp only [dropDupFirstBy, if_pos hseen]
      exact ih seen
    · simp only [dropDupFirstBy, if_neg hseen, List.map_cons, List.nodup_cons]
      refine ⟨fun hmem => ?_, ih _⟩
      rw [dropDupFirstBy_mem] at hmem
      exact hmem.2 (List.mem_cons_self _ _)

/-- C3: `_combine_enriched_data` is the union of existing and new records
keyed by `Letterboxd URI`: when no existing dataset is present the result
is exactly the new data; otherwise the record found for each key is the
existing one when the key collides (first-seen-wins, new record discarded)
and the new one otherwise; a key occurs in the result exactly when it
occurs in either input; and — given the batch invariant that new keys are
unique — every merge result's keys are duplicate-free. -/
theorem claim_C3 (new_enriched : List EnrichedRow)
    (hnew : (new_enriched.map (fun r => r.letterboxdURI)).Nodup) :
    _combine_enriched_data new_enriched none = new_enriched
    ∧ (∀ (existing : List EnrichedRow) (k : String),
        (_combine_enriched_data new_enriched (some existing)).find?
            (fun r => r.letterboxdURI == k)
          = ((existing.find? (fun r => r.letterboxdURI == k)).or
              (new_enriched.find? (fun r => r.letterboxdURI == k))))
    ∧ (∀ (existing : List EnrichedRow) (k : String),
        k ∈ (_combine_enriched_data new_enriched (some existing)).map
            (fun r => r.letterboxdURI)
          ↔ (k ∈ existing.map (fun r => r.letterboxdURI)
            ∨ k ∈ new_enriched.map (fun r => r.letterboxdURI)))
    ∧ (∀ enriched : Option (List EnrichedRow),
        ((_combine_enriched_data new_enriched enriched).map
            (fun r => r.letterboxdURI)).Nodup) := by
  refine ⟨rfl, ?_, ?_, ?_⟩
  · intro existing k
    show (dropDupFirstBy (existing ++ new_enriched) []).find? _ = _
    rw [dropDupFirstBy_find k (existing ++ new_enriched) [] (List.not_mem_nil k),
      List.find?_append]
  · intro existing k
    show k ∈ (dropDupFirstBy (existing ++ new_enriched) []).map _ ↔ _
    rw [dropDupFirstBy_mem]
    simp [List.mem_append]
  · intro enriched
    cases enriched with
    | none => exact hnew
    | some existing => exact dropDupFirstBy_nodup (existing ++ new_enriched) []

/-- Witness for C3 on concrete one-row datasets with distinct URIs: the
no-existing case returns the new data unchanged, an existing record with a
colliding key wins, and the merged keys are unique. -/
theorem claim_C3_witness :
    (([_build_enriched_row rowB dEmpty].map (fun r => r.letterboxdURI)).Nodup)
    ∧ _combine_enriched_data [_build_enriched_row rowB dEmpty] none
        = [_build_enriched_row rowB dEmpty]
    ∧ (_combine_enriched_data [_build_enriched_row rowB dEmpty]
          (some [_build_enriched_row rowA dEmpty])).find?
          (fun r => r.letterboxdURI == "u1")
        = (([_build_enriched_row rowA dEmpty].find?
              (fun r => r.letterboxdURI == "u1")).or
            ([_build_enriched_row rowB dEmpty].find?
              (fun r => r.letterboxdURI == "u1"))) :=
  ⟨by decide,
    (claim_C3 [_build_enriched_row rowB dEmpty] (by decide)).1,
    (claim_C3 [_build_enriched_row rowB dEmpty] (by decide)).2.1
      [_build_enriched_row rowA dEmpty] "u1"⟩

/-- C4: when the delta is non-empty and the Batch Enricher fails (missing
columns or zero rows enriched), `process_and_save_data` propagates that
failure and leaves the persisted dataset exactly as it was; its trace is
the enricher's own trace, which never contains a write — the write happens
only after both enrichment and merge have succeeded. -/
theorem claim_C4 (gmd : String → Int → Option Details) (df : DataFrame)
    (enriched : Option (List EnrichedRow)) (e : EnrichErr) (tr : List Eff)
    (hne : (_get_new_movies df enriched).rows.isEmpty = false)
    (henr : enrich_dataframe gmd (_get_new_movies df enriched) = (.error e, tr)) :
    process_and_save_data true gmd (some df) enriched
        = (.error (.enrichFailed e), enriched, tr)
    ∧ Eff.write ∉ tr := by
  constructor
  · simp [process_and_save_data, hne, henr]
  · have htr : (enrich_dataframe gmd (_get_new_movies df enriched)).2 = tr := by
      rw [henr]
    exact htr ▸ enrich_dataframe_no_write gmd (_get_new_movies df enriched)

/-- Witness for C4: with an oracle that finds nothing, the run over rows A,
B fails with the no-records error, the (absent) dataset stays absent, and
no write effect occurs. -/
theorem claim_C4_witness :
    ((_get_new_movies dfAB none).rows.isEmpty = false)
    ∧ process_and_save_data true gmdNone (some dfAB) none
        = (.error (.enrichFailed .noRecordsEnriched), none,
          [.gmdCall, .sleepHalf, .gmdCall, .sleepHalf])
    ∧ Eff.write ∉ ([.gmdCall, .sleepHalf, .gmdCall, .sleepHalf] : List Eff) :=
  ⟨rfl,
    (claim_C4 gmdNone dfAB none .noRecordsEnriched
      [.gmdCall, .sleepHalf, .gmdCall, .sleepHalf] rfl rfl).1,
    (claim_C4 gmdNone dfAB none .noRecordsEnriched
      [.gmdCall, .sleepHalf, .gmdCall, .sleepHalf] rfl rfl).2⟩

/-- Bridge between the Boolean `List.contains` used by the embedding and
propositional membership. -/
theorem string_contains_iff (l : List String) (a : String) :
    l.contains a = true ↔ a ∈ l := List.elem_iff

/-- `List.contains` is `false` on a non-member. -/
theorem contains_false_of_not_mem {l : List String} {a : String} (h : a ∉ l) :
    l.contains a = false := by
  cases hb : l.contains a with
  | false => rfl
  | true => exact absurd ((string_contains_iff l a).mp hb) h

/-- A run over an empty delta returns successfully, leaves the persisted
dataset untouched and performs no effect at all. -/
theorem run_of_empty_delta (gmd : String → Int → Option Details)
    (df : DataFrame) (enriched : Option (List EnrichedRow))
    (h : (_get_new_movies df enriched).rows = []) :
    process_and_save_data true gmd (some df) enriched = (.ok (), enriched, []) := by
  simp [process_and_save_data, h]

/-- When every row of a batch has `Name` and `Year` present and is found by
the gateway, the enriched rows carry exactly the batch's URIs, in order. -/
theorem enrichRows_uris (gmd : String → Int → Option Details) :
    ∀ rows : List SourceRow,
      (∀ r ∈ rows, ∃ n y d, r.name = some n ∧ r.year = some y ∧ gmd n y = some d) →
      (enrichRows gmd rows).1.map (fun er => er.letterboxdURI)
        = rows.map (fun r => r.letterboxdURI) := by
  intro rows
  induction rows with
  | nil => intro _; rfl
  | cons r rs ih =>
    intro hall
    obtain ⟨n, y, d, hn, hy, hg⟩ := hall r (List.mem_cons_self r rs)
    have hrest := ih (fun x hx => hall x (List.mem_cons_of_mem r hx))
    simp [enrichRows, hn, hy, hg, hrest, _build_enriched_row]

/-- The delta against a present dataset, written out: the source rows whose
URI is not among the dataset's URIs. -/
theorem get_new_movies_rows_eq (df : DataFrame) (ex : List EnrichedRow) :
    (_get_new_movies df (some ex)).rows =
      df.rows.filter
        (fun r => !((ex.map (fun er => er.letterboxdURI)).contains
          r.letterboxdURI)) := rfl

/-- C1 (amended): after a successful run in which every row of the computed
delta was actually enriched (`Name` and `Year` present, gateway found the
movie), a second run over the same source computes an empty delta, performs
no enrichment call, does not write, and leaves the persisted dataset
exactly as the first run left it. -/
theorem claim_C1_amended (gmd : String → Int → Option Details)
    (df : DataFrame) (enriched : Option (List EnrichedRow))
    (hok : (process_and_save_data true gmd (some df) enriched).1 = .ok ())
    (hall : ∀ r ∈ (_get_new_movies df enriched).rows,
      ∃ n y d, r.name = some n ∧ r.year = some y ∧ gmd n y = some d) :
    (_get_new_movies df
        ((process_and_save_data true gmd (some df) enriched).2.1)).rows = []
    ∧ process_and_save_data true gmd (some df)
          ((process_and_save_data true gmd (some df) enriched).2.1)
        = (.ok (), (process_and_save_data true gmd (some df) enriched).2.1, []) := by
  have hpart1 : (_get_new_movies df
      ((process_and_save_data true gmd (some df) enriched).2.1)).rows = [] := by
    by_cases h0 : (_get_new_movies df enriched).rows = []
    · rw [run_of_empty_delta gmd df enriched h0]
      exact h0
    · have hne : (_get_new_movies df enriched).rows.isEmpty = false := by
        cases hh : (_get_new_movies df enriched).rows with
        | nil => exact absurd hh h0
        | cons a l => rfl
      have hcols : requiredColumns.filter
          (fun c => !((_get_new_movies df enriched).columns.contains c)) = [] := by
        by_contra hc
        have henr : enrich_dataframe gmd (_get_new_movies df enriched)
            = (.error .missingColumns, []) := by
          unfold enrich_dataframe
          rw [if_pos hc]
        have hbad : (process_and_save_data true gmd (some df) enriched).1
            = .error (.enrichFailed .missingColumns) := by
          simp [process_and_save_data, hne, henr]
        rw [hok] at hbad
        exact Except.noConfusion hbad
      have huris : (enrichRows gmd (_get_new_movies df enriched).rows).1.map
          (fun er => er.letterboxdURI)
          = (_get_new_movies df enriched).rows.map (fun r => r.letterboxdURI) :=
        enrichRows_uris gmd _ hall
      have hresne :
          (enrichRows gmd (_get_new_movies df enriched).rows).1.isEmpty = false := by
        cases hh : (enrichRows gmd (_get_new_movies df enriched).rows).1 with
        | nil =>
          rw [hh] at huris
          exact absurd (List.map_eq_nil_iff.mp huris.symm) h0
        | cons a l => rfl
      have henr : enrich_dataframe gmd (_get_new_movies df enriched)
          = (.ok (enrichRows gmd (_get_new_movies df enriched).rows).1,
            (enrichRows gmd (_get_new_movies df enriched).rows).2) := by
        unfold enrich_dataframe
        rw [if_neg (not_not_intro hcols)]
        simp [hresne]
      have hrun1 : process_and_save_data true gmd (some df) enriched
          = (.ok (),
            some (_combine_enriched_data
              (enrichRows gmd (_get_new_movies df enriched).rows).1 enriched),
            (enrichRows gmd (_get_new_movies df enriched).rows).2 ++ [.write]) := by
        simp [process_and_save_data, hne, henr]
      have hcover : ∀ r ∈ df.rows, r.letterboxdURI ∈
          (_combine_enriched_data
            (enrichRows gmd (_get_new_movies df enriched).rows).1 enriched).map
            (fun er => er.letterboxdURI) := by
        intro r hr
        cases enriched with
        | none =>
          simp only [_combine_enriched_data]
          rw [huris]
          exact List.mem_map_of_mem _ hr
        | some ex =>
          simp only [_combine_enriched_data]
          rw [dropDupFirstBy_mem]
          refine ⟨?_, List.not_mem_nil _⟩
          rw [List.map_append, List.mem_append]
          by_cases hin : r.letterboxdURI ∈ ex.map (fun er => er.letterboxdURI)
          · exact Or.inl hin
          · refine Or.inr ?_
            rw [huris]
            refine List.mem_map_of_mem _ ?_
            rw [get_new_movies_rows_eq, List.mem_filter]
            refine ⟨hr, ?_⟩
            have hcf : (ex.map (fun er => er.letterboxdURI)).contains
                r.letterboxdURI = false := contains_false_of_not_mem hin
            simp only [hcf, Bool.not_false]
      rw [hrun1]
      rw [get_new_movies_rows_eq, List.filter_eq_nil_iff]
      intro a ha
      have hc := (string_contains_iff _ _).mpr (hcover a ha)
      intro hcontra
      simp only [Bool.not_eq_true'] at hcontra
      rw [hc] at hcontra
      exact Bool.noConfusion hcontra
  exact ⟨hpart1, run_of_empty_delta gmd df _ hpart1⟩

/-- Witness for C1 (amended): over rows A, B with an oracle finding both,
the first run succeeds and the second run computes an empty delta, emits no
effect and leaves the dataset unchanged. -/
theorem claim_C1_witness :
    (process_and_save_data true gmdAll (some dfAB) none).1 = .ok ()
    ∧ (_get_new_movies dfAB
        ((process_and_save_data true gmdAll (some dfAB) none).2.1)).rows = []
    ∧ process_and_save_data true gmdAll (some dfAB)
          ((process_and_save_data true gmdAll (some dfAB) none).2.1)
        = (.ok (), (process_and_save_data true gmdAll (some dfAB) none).2.1, []) := by
  have hall : ∀ r ∈ (_get_new_movies dfAB none).rows,
      ∃ n y d, r.name = some n ∧ r.year = some y ∧ gmdAll n y = some d := by
    intro r hr
    simp only [_get_new_movies, dfAB, List.mem_cons, List.not_mem_nil,
      or_false] at hr
    rcases hr with rfl | rfl
    · exact ⟨"A", 2010, dEmpty, rfl, rfl, rfl⟩
    · exact ⟨"B", 2008, dEmpty, rfl, rfl, rfl⟩
  have h := claim_C1_amended gmdAll dfAB none rfl hall
  exact ⟨rfl, h.1, h.2⟩

/-- Counterexample to C1 as stated: with an oracle that finds movie A but
not movie B, the first run over rows A, B succeeds (one record enriched),
yet the second run over the same source computes the non-empty delta [B],
performs one enrichment call, and raises the no-records error — it is not
free of enrichment work. -/
theorem claim_C1_counterexample :
    (process_and_save_data true gmdA (some dfAB) none).1 = .ok ()
    ∧ (_get_new_movies dfAB
        ((process_and_save_data true gmdA (some dfAB) none).2.1)).rows = [rowB]
    ∧ (process_and_save_data true gmdA (some dfAB)
        ((process_and_save_data true gmdA (some dfAB) none).2.1)).2.2.count
          Eff.gmdCall = 1
    ∧ (process_and_save_data true gmdA (some dfAB)
        ((process_and_save_data true gmdA (some dfAB) none).2.1)).1
        = .error (.enrichFailed .noRecordsEnriched) :=
  ⟨rfl, rfl, by decide, rfl⟩
